import Mathlib

/-!
# Kimberlite Python SDK — shallow embedding and verification

This file embeds the client library in `src/sdks/python/kimberlite/`
(`value.py`, `errors.py`, `ffi.py`, `client.py`) as Lean definitions and
proves or refutes the specification claims about it.

Modelling conventions:
* Python `int` is `Int`; unsigned 64-bit values are `Nat`.
* A ctypes `c_int64` field stores its value wrapped into `[-2^63, 2^63)`;
  the wrap is explicit (`toCInt64`).
* A ctypes `c_char_p` is `Option String` (`none` = NULL pointer); Python
  truthiness of the bytes it yields is `cCharPTruthy` (NULL and the empty
  byte string are both falsy).
* Raising an exception is modelled by an `Except`/`Option` error result.
* Each client operation also returns the list of boundary/decoding steps it
  performed, in order, so that claims about "no boundary call is issued" or
  "the release call runs exactly once" are statements about that trace.
-/

namespace Kimberlite

/-- Type tag for SQL values (`value.py`, `class ValueType`). -/
inductive ValueType where
  | NULL
  | BIGINT
  | TEXT
  | BOOLEAN
  | TIMESTAMP
deriving DecidableEq, Repr

/-- A typed SQL value (`value.py`, `class Value`): a tagged union of the
payloads the five tags carry.  The Python class stores `(type, data)` with the
payload type matching the tag; the inductive enforces exactly that pairing. -/
inductive Value where
  | vnull
  | vbigint (n : Int)
  | vtext (s : String)
  | vboolean (b : Bool)
  | vtimestamp (n : Int)
deriving DecidableEq, Repr

/-- `Value.null()` factory (`value.py` line 66). -/
def Value.null : Value := .vnull

/-- `Value.bigint(val)` factory (`value.py` lines 75-92): rejects values
outside the signed 64-bit range (`val < -(2**63) or val >= 2**63` raises
`ValueError`, modelled as `none`). -/
def Value.bigint (val : Int) : Option Value :=
  if val < -(2 ^ 63) ∨ 2 ^ 63 ≤ val then none else some (.vbigint val)

/-- `Value.text(val)` factory (`value.py` lines 94-109); the `isinstance`
check is subsumed by the Lean type of `val`. -/
def Value.text (val : String) : Value := .vtext val

/-- `Value.boolean(val)` factory (`value.py` lines 111-126). -/
def Value.boolean (val : Bool) : Value := .vboolean val

/-- `Value.timestamp(nanos)` factory (`value.py` lines 128-143). -/
def Value.timestamp (nanos : Int) : Value := .vtimestamp nanos

/-- Wrap an integer the way ctypes stores it into a `c_int64` field:
reduce modulo `2^64` into the signed range `[-2^63, 2^63)`. -/
def toCInt64 (n : Int) : Int := (n + 2 ^ 63) % 2 ^ 64 - 2 ^ 63

/-- `KmbQueryParam` (`ffi.py` lines 78-86): the tagged wire parameter
record `{param_type, bigint_val, text_val, bool_val, timestamp_val}`.
`text_val` is a `c_char_p` (`none` = NULL). -/
structure KmbQueryParam where
  param_type : Nat
  bigint_val : Int
  text_val : Option String
  bool_val : Int
  timestamp_val : Int
deriving DecidableEq, Repr

/-- `KmbQueryValue` (`ffi.py` lines 89-97): the tagged wire result-cell
record; field-for-field the same layout as `KmbQueryParam`. -/
structure KmbQueryValue where
  value_type : Nat
  bigint_val : Int
  text_val : Option String
  bool_val : Int
  timestamp_val : Int
deriving DecidableEq, Repr

/-- The wire layout of parameters and result cells is shared (`ffi.py`
declares the two structures with identical fields; spec section 6 calls it the
"shared shape for parameters and results").  This reinterprets a parameter
record as the result-cell record carrying the same bits. -/
def KmbQueryParam.asValueRec (p : KmbQueryParam) : KmbQueryValue :=
  ⟨p.param_type, p.bigint_val, p.text_val, p.bool_val, p.timestamp_val⟩

/-- `Client._value_to_param` (`client.py` lines 478-506): encode a `Value`
into the wire parameter record.  Unset ctypes fields are zero-initialized
(`0` / NULL); `bool_val` is `1 if val.data else 0`; the two `c_int64` fields
wrap on assignment. -/
def value_to_param : Value → KmbQueryParam
  | .vnull => ⟨0, 0, none, 0, 0⟩
  | .vbigint n => ⟨1, toCInt64 n, none, 0, 0⟩
  | .vtext s => ⟨2, 0, some s, 0, 0⟩
  | .vboolean b => ⟨3, 0, none, if b then 1 else 0, 0⟩
  | .vtimestamp n => ⟨4, 0, none, 0, toCInt64 n⟩

/-- Python truthiness of a `c_char_p` read back as bytes: NULL is falsy and
so is the empty byte string `b""`. -/
def cCharPTruthy : Option String → Bool
  | none => false
  | some s => !s.isEmpty

/-- `Client._parse_query_value` (`client.py` lines 536-561): decode a wire
result cell into a `Value`.  Tag 2 checks `if ffi_val.text_val:` (Python
truthiness) and falls back to `Value.null()`; tag 1 goes through the checked
`Value.bigint` factory; an unknown tag raises `ValueError` (`none`). -/
def parse_query_value (v : KmbQueryValue) : Option Value :=
  if v.value_type = 0 then some Value.null
  else if v.value_type = 1 then Value.bigint v.bigint_val
  else if v.value_type = 2 then
    if cCharPTruthy v.text_val then some (Value.text (v.text_val.getD "")) else some Value.null
  else if v.value_type = 3 then some (Value.boolean (v.bool_val ≠ 0))
  else if v.value_type = 4 then some (Value.timestamp v.timestamp_val)
  else none

/-! ## Error taxonomy (`errors.py`) -/

/-- The exception classes of `errors.py`.  `kimberliteError` is the base
class `KimberliteError`, raised directly (with only the numeric code to
distinguish it) for codes 1, 2, 10, 15. -/
inductive ErrKind where
  | kimberliteError
  | connectionError
  | streamNotFoundError
  | permissionDeniedError
  | authenticationError
  | timeoutError
  | invalidDataClassError
  | offsetOutOfRangeError
  | querySyntaxError
  | queryExecutionError
  | internalError
  | clusterUnavailableError
deriving DecidableEq, Repr

/-- `ERROR_MAP` (`errors.py` lines 71-87) together with the
`ERROR_MAP.get(code, ...)` default of `raise_for_error_code`
(`errors.py` line 106): the exception class raised for each nonzero code. -/
def ERROR_MAP : Nat → ErrKind
  | 1 => .kimberliteError
  | 2 => .kimberliteError
  | 3 => .connectionError
  | 4 => .streamNotFoundError
  | 5 => .permissionDeniedError
  | 6 => .invalidDataClassError
  | 7 => .offsetOutOfRangeError
  | 8 => .querySyntaxError
  | 9 => .queryExecutionError
  | 10 => .kimberliteError
  | 11 => .authenticationError
  | 12 => .timeoutError
  | 13 => .internalError
  | 14 => .clusterUnavailableError
  | 15 => .kimberliteError
  | _ => .kimberliteError

/-- The errors a client operation can raise: the local closed-client
`KimberliteError("Client is closed")`, the local `ValueError` on an empty
append batch, a ctypes `TypeError` from a call that does not match the
declared argtypes, an injected decoding failure (fault injection during
value decoding), a `ValueError` from decoding an unknown wire tag, and a
boundary error raised by `_check_error` carrying its class and code. -/
inductive KErr where
  | clientClosed
  | emptyEventList
  | ctypesTypeError
  | decodeFault
  | decodeValueError
  | boundary (kind : ErrKind) (code : Nat)
deriving DecidableEq, Repr

/-- `_check_error` (`ffi.py` lines 213-224) with `raise_for_error_code`
(`errors.py` lines 90-107): return normally (`none`) iff the code is 0,
otherwise raise the exception `ERROR_MAP` assigns to the code. -/
def check_error (code : Nat) : Option KErr :=
  if code = 0 then none else some (.boundary (ERROR_MAP code) code)

/-! ## Client state and boundary-call traces (`client.py`) -/

/-- The mutable state of a `Client` (`client.py` lines 80-90): the
`_closed` flag and the optional opaque `_handle`. -/
structure ClientState where
  closed : Bool
  handle : Option Unit
deriving DecidableEq, Repr

/-- One observable step of a client operation: a boundary call into the
engine, a release call on an engine-allocated record, or the start of
client-side decoding of an acquired record. -/
inductive Step where
  | callDisconnect
  | callCreateStream
  | callAppend
  | callReadEvents
  | freeReadResult
  | callQuery
  | callQueryAt
  | freeQueryResult
  | decodeRead
  | decodeQuery
deriving DecidableEq, Repr

/-- `Client.disconnect` (`client.py` lines 146-155): if not closed and the
handle is present, issue the boundary disconnect and clear both fields;
otherwise do nothing.  It never raises. -/
def disconnect (s : ClientState) : ClientState × List Step :=
  if !s.closed ∧ s.handle.isSome then
    (⟨true, none⟩, [.callDisconnect])
  else (s, [])

/-- `Client._check_connected` (`client.py` lines 174-181): raise the local
closed-client error iff `_closed` is set or the handle is gone. -/
def check_connected (s : ClientState) : Option KErr :=
  if s.closed ∨ s.handle = none then some .clientClosed else none

/-! ## FFI call signatures (`ffi.py`)

ctypes converts each actual argument to the declared argtype at the same
position and raises a local `ArgumentError`/`TypeError` when one does not
convert (or when fewer arguments than argtypes are supplied); arguments
beyond the declared argtypes are passed with default conversions.  We model
an argument as convertible exactly when its C kind equals the declared kind,
which is accurate for the kinds that occur here. -/

/-- C kinds of the arguments appearing in the FFI declarations. -/
inductive CType where
  | clientHandle
  | u64
  | charPtr
  | int
  | u8PtrPtr
  | sizePtr
  | size
  | u64Ptr
  | readResultPtrPtr
  | queryParamPtr
  | queryResultPtrPtr
deriving DecidableEq, Repr

/-- ctypes acceptance of a call: at least as many actual arguments as
declared argtypes, and each of the first `declared.length` actuals converts
to (here: equals) the declared kind at its position. -/
def ctypesCallOk (declared actual : List CType) : Bool :=
  declared.length ≤ actual.length && decide (actual.take declared.length = declared)

/-- `kmb_client_append` declared argtypes (`ffi.py` lines 154-163): handle,
stream id, event pointer array, length array, count, out-pointer for the
first offset — six entries, no expected-offset parameter. -/
def kmb_client_append_argtypes : List CType :=
  [.clientHandle, .u64, .u8PtrPtr, .sizePtr, .size, .u64Ptr]

/-- The argument kinds `Client.append` actually passes (`client.py` lines
256-264): handle, `int(stream_id)`, `int(expected_offset)`, `event_ptrs`,
`event_lengths`, `event_count`, `byref(first_offset)` — seven arguments,
the expected-offset token third. -/
def append_call_arg_kinds : List CType :=
  [.clientHandle, .u64, .u64, .u8PtrPtr, .sizePtr, .size, .u64Ptr]

/-- The default for the `expected_offset` parameter of `Client.append`
(`client.py` line 217): `Offset(0)`. -/
def append_expected_offset_default : Nat := 0

/-! ## Stream and query operations (`client.py`) -/

/-- One event returned by `read` (`client.py`, `class Event`). -/
structure Event where
  offset : Nat
  data : List Nat
deriving DecidableEq, Repr

/-- `KmbReadResult` (`ffi.py` lines 69-75): the engine-allocated read-result
record.  The `events` pointer array and `event_lengths` array are modelled
as the byte payloads they address; `event_count` is their number. -/
structure KmbReadResult where
  events : List (List Nat)
deriving DecidableEq, Repr

/-- `KmbQueryResult` (`ffi.py` lines 100-108): column-name array and rows of
tagged wire cells; `column_count`, `row_lengths`, `row_count` are the
lengths of the modelled lists. -/
structure KmbQueryResult where
  columns : List String
  rows : List (List KmbQueryValue)
deriving DecidableEq, Repr

/-- `QueryResult` (`client.py` lines 38-61): decoded columns and rows. -/
structure QueryResult where
  columns : List String
  rows : List (List Value)
deriving DecidableEq, Repr

/-- `Client.create_stream` (`client.py` lines 183-211).  The engine response
is the pair of a return code and the stream id it writes through the
out-pointer when the code is 0. -/
def create_stream (s : ClientState) (_name : String) (_data_class : Nat)
    (code : Nat) (sid : Nat) : Except KErr Nat × List Step :=
  match check_connected s with
  | some e => (.error e, [])
  | none =>
    match check_error code with
    | some e => (.error e, [.callCreateStream])
    | none => (.ok sid, [.callCreateStream])

/-- `Client.append` (`client.py` lines 213-267).  After the connected check
and the empty-batch check, the code calls `_lib.kmb_client_append` with
seven arguments; ctypes matches them against the six declared argtypes
before entering the foreign function, raising locally when a position does
not convert.  On an accepted call the engine response is the pair of a
return code and the first offset written through the out-pointer. -/
def append (s : ClientState) (_stream_id : Nat) (events : List (List Nat))
    (_expected_offset : Nat) (code : Nat) (first_offset : Nat) :
    Except KErr Nat × List Step :=
  match check_connected s with
  | some e => (.error e, [])
  | none =>
    if events = [] then (.error .emptyEventList, [])
    else if !ctypesCallOk kmb_client_append_argtypes append_call_arg_kinds then
      (.error .ctypesTypeError, [])
    else
      match check_error code with
      | some e => (.error e, [.callAppend])
      | none => (.ok first_offset, [.callAppend])

/-- The decoding loop of `Client.read` (`client.py` lines 310-320): for each
index `i` below `event_count`, copy the bytes and set
`offset = Offset(int(from_offset) + i)` — the offset is computed
client-side from the requested offset and the batch index; the wire record
carries no positional metadata. -/
def decode_read_events (from_offset : Nat) (rec : KmbReadResult) : List Event :=
  (List.range rec.events.length).map fun i =>
    ⟨from_offset + i, rec.events.getD i []⟩

/-- `Client.read` (`client.py` lines 269-327).  `code`/`rec` are the engine
response (`rec` is the record the out-pointer addresses when `code` is 0);
`fault` injects a failure while decoding.  `_check_error` runs before the
`try`, so on a nonzero code no record was acquired and nothing is freed; on
code 0 the `try`/`finally` frees the record exactly once on both the normal
and the raising decode path (the `finally` guard `if result_ptr:` holds
because the out-pointer was set). -/
def read (s : ClientState) (_stream_id : Nat) (from_offset : Nat)
    (_max_bytes : Nat) (code : Nat) (rec : KmbReadResult) (fault : Bool) :
    Except KErr (List Event) × List Step :=
  match check_connected s with
  | some e => (.error e, [])
  | none =>
    match check_error code with
    | some e => (.error e, [.callReadEvents])
    | none =>
      let outcome : Except KErr (List Event) :=
        if fault then .error .decodeFault
        else .ok (decode_read_events from_offset rec)
      (outcome, [.callReadEvents, .decodeRead, .freeReadResult])

/-- The inner loop of `Client._parse_query_result` (`client.py` lines
525-532): decode the cells of one row in order; a cell that raises (unknown
tag) aborts the decode. -/
def parse_row : List KmbQueryValue → Option (List Value)
  | [] => some []
  | c :: cs =>
    match parse_query_value c, parse_row cs with
    | some v, some vs => some (v :: vs)
    | _, _ => none

/-- The outer loop of `Client._parse_query_result`: decode the rows in
order. -/
def parse_rows : List (List KmbQueryValue) → Option (List (List Value))
  | [] => some []
  | r :: rs =>
    match parse_row r, parse_rows rs with
    | some vs, some vss => some (vs :: vss)
    | _, _ => none

/-- `Client._parse_query_result` (`client.py` lines 508-534): decode the
column names and every cell of every row. -/
def parse_query_result (rec : KmbQueryResult) : Option QueryResult :=
  (parse_rows rec.rows).map fun rows => ⟨rec.columns, rows⟩

/-- `Client.query` (`client.py` lines 329-379): connected check, parameter
encoding via `_value_to_param`, the boundary call, `_check_error`, then a
`try`/`finally` that decodes the record and frees it exactly once. -/
def query (s : ClientState) (_sql : String) (params : List Value)
    (code : Nat) (rec : KmbQueryResult) (fault : Bool) :
    Except KErr QueryResult × List Step :=
  match check_connected s with
  | some e => (.error e, [])
  | none =>
    let _ffi_params := params.map value_to_param
    match check_error code with
    | some e => (.error e, [.callQuery])
    | none =>
      let outcome : Except KErr QueryResult :=
        if fault then .error .decodeFault
        else match parse_query_result rec with
          | some q => .ok q
          | none => .error .decodeValueError
      (outcome, [.callQuery, .decodeQuery, .freeQueryResult])

/-- `Client.query_at` (`client.py` lines 381-442): identical to `query`
except for the extra position argument in the boundary call. -/
def query_at (s : ClientState) (_sql : String) (params : List Value)
    (_position : Nat) (code : Nat) (rec : KmbQueryResult) (fault : Bool) :
    Except KErr QueryResult × List Step :=
  match check_connected s with
  | some e => (.error e, [])
  | none =>
    let _ffi_params := params.map value_to_param
    match check_error code with
    | some e => (.error e, [.callQueryAt])
    | none =>
      let outcome : Except KErr QueryResult :=
        if fault then .error .decodeFault
        else match parse_query_result rec with
          | some q => .ok q
          | none => .error .decodeValueError
      (outcome, [.callQueryAt, .decodeQuery, .freeQueryResult])

/-- `Client.execute` (`client.py` lines 444-476): delegate to `query` and
return `len(result.rows)`. -/
def execute (s : ClientState) (sql : String) (params : List Value)
    (code : Nat) (rec : KmbQueryResult) (fault : Bool) :
    Except KErr Nat × List Step :=
  let (res, tr) := query s sql params code rec fault
  (res.map fun q => q.rows.length, tr)

/-! ## The spec's error taxonomy (section 7), for refinement comparison -/

/-- The fifteen error kinds of spec section 7.  This is a second definition
following the spec's words (not the source), used only to compare the
implemented `ERROR_MAP` against the claimed code-to-kind assignment. -/
inductive SpecErrKind where
  | nullArgument
  | invalidEncoding
  | connectionFailure
  | streamNotFound
  | permissionDenied
  | invalidDataClass
  | offsetOutOfRange
  | querySyntaxError
  | queryExecutionError
  | tenantNotFound
  | authenticationFailure
  | timeout
  | internalError
  | clusterUnavailable
  | unknown
deriving DecidableEq, Repr

/-- The code-to-kind assignment of spec sections 6-7 (codes 1-15 map to the
taxonomy in order; 0 is success, mapped to `none`).  Second definition from
the spec's words, for refinement comparison with `ERROR_MAP`. -/
def specTaxonomy : Nat → Option SpecErrKind
  | 1 => some .nullArgument
  | 2 => some .invalidEncoding
  | 3 => some .connectionFailure
  | 4 => some .streamNotFound
  | 5 => some .permissionDenied
  | 6 => some .invalidDataClass
  | 7 => some .offsetOutOfRange
  | 8 => some .querySyntaxError
  | 9 => some .queryExecutionError
  | 10 => some .tenantNotFound
  | 11 => some .authenticationFailure
  | 12 => some .timeout
  | 13 => some .internalError
  | 14 => some .clusterUnavailable
  | 15 => some .unknown
  | _ => none

/-! ## Spec-modelled engine response for `execute` -/

/-- A DDL or DML statement, abstracted by the one datum that matters to
`execute`: how many rows it affects. -/
inductive Statement where
  | ddl
  | dml (n : Nat)

/-- The number of rows a statement affects; a DDL statement affects none. -/
def rows_affected : Statement → Nat
  | .ddl => 0
  | .dml n => n

/-- Modelled from the spec: the result record the native engine returns
through `kmb_client_query` for a DDL or DML statement.  The engine is not
under `src/` (it is reached only through the boundary); spec section 4.5
says "`execute(sql, params?) → rows_affected` for DDL/DML. DDL returns 0",
and `client.py` line 475 documents that the row count of the returned
record indicates the rows affected.  The modelled record for a DML
statement affecting `n` rows therefore carries `n` rows, and the record for
a DDL statement carries none. -/
def engine_query_rec : Statement → KmbQueryResult
  | .ddl => ⟨[], []⟩
  | .dml n => ⟨[], List.replicate n []⟩

/-! ## Helper lemmas -/

/-- A `c_int64` assignment does not change a value already in range. -/
theorem toCInt64_eq_of_range (n : Int) (hlo : -(2 ^ 63) ≤ n) (hhi : n < 2 ^ 63) :
    toCInt64 n = n := by
  unfold toCInt64
  omega

/-- Decoding a result whose rows are all empty succeeds and returns as many
empty rows. -/
theorem parse_rows_replicate_nil (n : Nat) :
    parse_rows (List.replicate n ([] : List KmbQueryValue)) =
      some (List.replicate n ([] : List Value)) := by
  induction n with
  | zero => rfl
  | succ k ih => simp [List.replicate_succ, parse_rows, parse_row, ih]

/-! ## Claim theorems -/

/-- C5: for every integer `n` in `[-2^63, 2^63-1]`, `Value.bigint n`
succeeds, and encoding the resulting value to the wire parameter record and
decoding the corresponding wire result record yields a BigInt value equal
to `n` exactly; `Value.bigint` fails at construction time on `2^63` and on
`-2^63 - 1`. -/
theorem bigint_wire_roundtrip (n : Int)
    (hlo : -(2 ^ 63) ≤ n) (hhi : n < 2 ^ 63) :
    Value.bigint n = some (.vbigint n) ∧
    (Value.bigint n).bind
        (fun v => parse_query_value (value_to_param v).asValueRec) =
      some (.vbigint n) ∧
    Value.bigint (2 ^ 63) = none ∧
    Value.bigint (-(2 ^ 63) - 1) = none := by
  have hmk : Value.bigint n = some (.vbigint n) := by
    unfold Value.bigint
    rw [if_neg]
    omega
  have hwrap : toCInt64 n = n := toCInt64_eq_of_range n hlo hhi
  refine ⟨hmk, ?_, by decide, by decide⟩
  rw [hmk]
  simp [value_to_param, KmbQueryParam.asValueRec, parse_query_value, hwrap, hmk]

/-- Witness for C5 at `n = 42`. -/
theorem bigint_wire_roundtrip_witness :
    Value.bigint 42 = some (.vbigint 42) ∧
    (Value.bigint 42).bind
        (fun v => parse_query_value (value_to_param v).asValueRec) =
      some (.vbigint 42) ∧
    Value.bigint (2 ^ 63) = none ∧
    Value.bigint (-(2 ^ 63) - 1) = none :=
  bigint_wire_roundtrip 42 (by decide) (by decide)

/-- C10: the wire encoding of the empty-string Text value decodes to a Null
value, not a Text value: `Value.text ""` encoded as a parameter record and
fed back through the result-value decoder yields `Value.null`, because the
decoder tests Python truthiness of the text pointer and the empty byte
string is falsy.  A non-empty Text value survives the same round trip. -/
theorem empty_text_decodes_to_null :
    parse_query_value (value_to_param (Value.text "")).asValueRec =
      some Value.null ∧
    Value.null ≠ Value.text "" ∧
    parse_query_value (value_to_param (Value.text "a")).asValueRec =
      some (Value.text "a") := by
  refine ⟨rfl, by decide, rfl⟩

/-- C1: on every call to `read`, `query` or `query_at` whose boundary call
succeeds (code 0), the acquired result record is released exactly once on
every exit path of the operation — in particular also on the path where an
injected fault makes value decoding raise (`fault` arbitrary). -/
theorem result_released_exactly_once (s : ClientState)
    (hclosed : s.closed = false) (hhandle : s.handle = some ())
    (sid fo mb : Nat) (rec : KmbReadResult) (sql : String) (ps : List Value)
    (qrec : KmbQueryResult) (pos : Nat) (fault : Bool) :
    (read s sid fo mb 0 rec fault).2.count .freeReadResult = 1 ∧
    (query s sql ps 0 qrec fault).2.count .freeQueryResult = 1 ∧
    (query_at s sql ps pos 0 qrec fault).2.count .freeQueryResult = 1 := by
  simp [read, query, query_at, check_connected, check_error, hclosed, hhandle,
    List.count_cons]

/-- Witness for C1 on an open client with an injected decode fault. -/
theorem result_released_exactly_once_witness :
    (read ⟨false, some ()⟩ 1 0 1024 0 ⟨[[1], [2]]⟩ true).2.count
        .freeReadResult = 1 ∧
    (query ⟨false, some ()⟩ "SELECT 1" [] 0 ⟨["c"], [[⟨1, 5, none, 0, 0⟩]]⟩
        true).2.count .freeQueryResult = 1 ∧
    (query_at ⟨false, some ()⟩ "SELECT 1" [] 9 0 ⟨["c"], []⟩ true).2.count
        .freeQueryResult = 1 :=
  result_released_exactly_once ⟨false, some ()⟩ rfl rfl 1 0 1024 ⟨[[1], [2]]⟩
    "SELECT 1" [] ⟨["c"], [[⟨1, 5, none, 0, 0⟩]]⟩ 9 true

/-- C2: after `disconnect` has run on a client in any state, every
operation (`create_stream`, `append`, `read`, `query`, `query_at`,
`execute`) fails immediately with the local closed-client error and issues
no boundary call (empty step trace), and a second `disconnect` performs no
second boundary disconnect and leaves the state unchanged (it returns
normally by construction — it has no error outcome). -/
theorem closed_client_rejects_operations (s : ClientState) (name : String)
    (dc code sid stream eo n fo mb pos : Nat) (evs : List (List Nat))
    (rec : KmbReadResult) (sql : String) (ps : List Value)
    (qrec : KmbQueryResult) (fault : Bool) :
    create_stream (disconnect s).1 name dc code sid =
      (.error .clientClosed, []) ∧
    append (disconnect s).1 stream evs eo code n = (.error .clientClosed, []) ∧
    read (disconnect s).1 stream fo mb code rec fault =
      (.error .clientClosed, []) ∧
    query (disconnect s).1 sql ps code qrec fault =
      (.error .clientClosed, []) ∧
    query_at (disconnect s).1 sql ps pos code qrec fault =
      (.error .clientClosed, []) ∧
    execute (disconnect s).1 sql ps code qrec fault =
      (.error .clientClosed, []) ∧
    disconnect (disconnect s).1 = ((disconnect s).1, []) := by
  rcases s with ⟨c, h⟩
  cases c <;> rcases h with _ | ⟨⟩ <;>
    simp [disconnect, create_stream, append, read, query, query_at, execute,
      check_connected, Except.map]

/-- C3 counterexample: the offsets `read` attaches to returned events are
computed client-side, not taken from engine metadata — the same engine
result record decoded under two different `from_offset` arguments yields
two different offset sequences, and each equals `from_offset + index`.  (The
wire read-result record has no positional field at all.) -/
theorem read_offsets_counterexample :
    (read ⟨false, some ()⟩ 1 0 1024 0 ⟨[[10], [20]]⟩ false).1 =
      .ok [⟨0, [10]⟩, ⟨1, [20]⟩] ∧
    (read ⟨false, some ()⟩ 1 5 1024 0 ⟨[[10], [20]]⟩ false).1 =
      .ok [⟨5, [10]⟩, ⟨6, [20]⟩] := by
  refine ⟨rfl, rfl⟩

/-- C3 (amended): on every successful `read`, the offset of the `i`-th
returned event is computed client-side as `from_offset + i`; the engine's
read-result record supplies only payload bytes and no positional
metadata. -/
theorem read_offsets_are_from_offset_plus_index (s : ClientState)
    (hclosed : s.closed = false) (hhandle : s.handle = some ())
    (sid fo mb : Nat) (rec : KmbReadResult) :
    ∃ evs, (read s sid fo mb 0 rec false).1 = .ok evs ∧
      evs.length = rec.events.length ∧
      ∀ i, (hi : i < evs.length) → (evs.get ⟨i, hi⟩).offset = fo + i := by
  refine ⟨decode_read_events fo rec, ?_, ?_, ?_⟩
  · simp [read, check_connected, check_error, hclosed, hhandle]
  · simp [decode_read_events]
  · intro i hi
    simp [decode_read_events]

/-- Witness for C3 (amended) on a concrete two-event record. -/
theorem read_offsets_are_from_offset_plus_index_witness :
    ∃ evs, (read ⟨false, some ()⟩ 1 3 64 0 ⟨[[10], [20]]⟩ false).1 = .ok evs ∧
      evs.length = ([[10], [20]] : List (List Nat)).length ∧
      ∀ i, (hi : i < evs.length) → (evs.get ⟨i, hi⟩).offset = 3 + i :=
  read_offsets_are_from_offset_plus_index ⟨false, some ()⟩ rfl rfl 1 3 64
    ⟨[[10], [20]]⟩

/-- C6: on an open client, `append` with an empty events sequence fails
locally (the `ValueError` raised by the empty-batch check, realizing the
spec's `InvalidArgument`) and issues no boundary call: the step trace is
empty, so the engine never sees an empty batch and no state changes. -/
theorem append_empty_fails_locally (s : ClientState)
    (hclosed : s.closed = false) (hhandle : s.handle = some ())
    (sid eo code fo : Nat) :
    append s sid [] eo code fo = (.error .emptyEventList, []) := by
  simp [append, check_connected, hclosed, hhandle]

/-- Witness for C6 on a concrete open client. -/
theorem append_empty_fails_locally_witness :
    append ⟨false, some ()⟩ 1 [] 0 0 0 = (.error .emptyEventList, []) :=
  append_empty_fails_locally ⟨false, some ()⟩ rfl rfl 1 0 0 0

/-- C4 counterexample: the claim that for every code in 1-15 the raised
error is the kind the taxonomy assigns to that code fails at codes 1 and
10 — the taxonomy assigns them the distinct kinds NullArgument and
TenantNotFound, but `ERROR_MAP` raises the same base exception class for
both, so no reading of the raised kinds realizes the taxonomy
assignment. -/
theorem error_map_collapses_taxonomy_counterexample :
    ERROR_MAP 1 = ERROR_MAP 10 ∧
    specTaxonomy 1 = some .nullArgument ∧
    specTaxonomy 10 = some .tenantNotFound ∧
    ¬∃ f : ErrKind → SpecErrKind,
      f (ERROR_MAP 1) = .nullArgument ∧ f (ERROR_MAP 10) = .tenantNotFound := by
  refine ⟨rfl, rfl, rfl, ?_⟩
  rintro ⟨f, h1, h2⟩
  rw [show ERROR_MAP 1 = ERROR_MAP 10 from rfl, h2] at h1
  simp at h1

/-- C4 (amended): the client raises iff the boundary code is nonzero; the
eleven codes with dedicated exception classes (3, 4, 5, 6, 7, 8, 9, 11, 12,
13, 14) raise the taxonomy kind assigned to them, while codes 1, 2, 10 and
15 raise the generic base exception distinguished only by the carried
numeric code; on a nonzero code `read`, `query` and `query_at` unwind
without attempting any decoding of an output record (their trace is just
the boundary call: no decode step and no release, since no record was
acquired). -/
theorem nonzero_code_raises_mapped_error (c : Nat) (s : ClientState)
    (hclosed : s.closed = false) (hhandle : s.handle = some ())
    (sid fo mb : Nat) (rec : KmbReadResult) (sql : String) (ps : List Value)
    (qrec : KmbQueryResult) (pos : Nat) (fault : Bool) (hc : c ≠ 0) :
    check_error c = some (.boundary (ERROR_MAP c) c) ∧
    check_error 0 = none ∧
    (ERROR_MAP 3 = .connectionError ∧ ERROR_MAP 4 = .streamNotFoundError ∧
      ERROR_MAP 5 = .permissionDeniedError ∧
      ERROR_MAP 6 = .invalidDataClassError ∧
      ERROR_MAP 7 = .offsetOutOfRangeError ∧ ERROR_MAP 8 = .querySyntaxError ∧
      ERROR_MAP 9 = .queryExecutionError ∧ ERROR_MAP 11 = .authenticationError ∧
      ERROR_MAP 12 = .timeoutError ∧ ERROR_MAP 13 = .internalError ∧
      ERROR_MAP 14 = .clusterUnavailableError) ∧
    (ERROR_MAP 1 = .kimberliteError ∧ ERROR_MAP 2 = .kimberliteError ∧
      ERROR_MAP 10 = .kimberliteError ∧ ERROR_MAP 15 = .kimberliteError) ∧
    (read s sid fo mb c rec fault).1 = .error (.boundary (ERROR_MAP c) c) ∧
    (read s sid fo mb c rec fault).2 = [.callReadEvents] ∧
    (query s sql ps c qrec fault).1 = .error (.boundary (ERROR_MAP c) c) ∧
    (query s sql ps c qrec fault).2 = [.callQuery] ∧
    (query_at s sql ps pos c qrec fault).1 =
      .error (.boundary (ERROR_MAP c) c) ∧
    (query_at s sql ps pos c qrec fault).2 = [.callQueryAt] := by
  refine ⟨by simp [check_error, hc], rfl,
    ⟨rfl, rfl, rfl, rfl, rfl, rfl, rfl, rfl, rfl, rfl, rfl⟩,
    ⟨rfl, rfl, rfl, rfl⟩, ?_, ?_, ?_, ?_, ?_, ?_⟩ <;>
  simp [read, query, query_at, check_connected, check_error, hclosed, hhandle, hc]

/-- Witness for C4 (amended) at code 7 on a concrete open client. -/
theorem nonzero_code_raises_mapped_error_witness :
    check_error 7 = some (.boundary (ERROR_MAP 7) 7) ∧
    check_error 0 = none ∧
    (ERROR_MAP 3 = .connectionError ∧ ERROR_MAP 4 = .streamNotFoundError ∧
      ERROR_MAP 5 = .permissionDeniedError ∧
      ERROR_MAP 6 = .invalidDataClassError ∧
      ERROR_MAP 7 = .offsetOutOfRangeError ∧ ERROR_MAP 8 = .querySyntaxError ∧
      ERROR_MAP 9 = .queryExecutionError ∧ ERROR_MAP 11 = .authenticationError ∧
      ERROR_MAP 12 = .timeoutError ∧ ERROR_MAP 13 = .internalError ∧
      ERROR_MAP 14 = .clusterUnavailableError) ∧
    (ERROR_MAP 1 = .kimberliteError ∧ ERROR_MAP 2 = .kimberliteError ∧
      ERROR_MAP 10 = .kimberliteError ∧ ERROR_MAP 15 = .kimberliteError) ∧
    (read ⟨false, some ()⟩ 1 0 64 7 ⟨[]⟩ false).1 =
      .error (.boundary (ERROR_MAP 7) 7) ∧
    (read ⟨false, some ()⟩ 1 0 64 7 ⟨[]⟩ false).2 = [.callReadEvents] ∧
    (query ⟨false, some ()⟩ "SELECT 1" [] 7 ⟨[], []⟩ false).1 =
      .error (.boundary (ERROR_MAP 7) 7) ∧
    (query ⟨false, some ()⟩ "SELECT 1" [] 7 ⟨[], []⟩ false).2 = [.callQuery] ∧
    (query_at ⟨false, some ()⟩ "SELECT 1" [] 2 7 ⟨[], []⟩ false).1 =
      .error (.boundary (ERROR_MAP 7) 7) ∧
    (query_at ⟨false, some ()⟩ "SELECT 1" [] 2 7 ⟨[], []⟩ false).2 =
      [.callQueryAt] :=
  nonzero_code_raises_mapped_error 7 ⟨false, some ()⟩ rfl rfl 1 0 64 ⟨[]⟩
    "SELECT 1" [] ⟨[], []⟩ 2 false (by decide)

/-- C7: `execute` returns the row count of the query result it delegates
to; against the spec-modelled engine response for a DDL or DML statement
that row count is the number of rows affected, and a DDL statement yields
0. -/
theorem execute_returns_rows_affected (s : ClientState)
    (hclosed : s.closed = false) (hhandle : s.handle = some ())
    (sql : String) (ps : List Value) (code : Nat) (rec : KmbQueryResult)
    (fault : Bool) (stmt : Statement) :
    (execute s sql ps code rec fault).1 =
      (query s sql ps code rec fault).1.map (fun q => q.rows.length) ∧
    (execute s sql ps 0 (engine_query_rec stmt) false).1 =
      .ok (rows_affected stmt) ∧
    rows_affected .ddl = 0 := by
  refine ⟨rfl, ?_, rfl⟩
  cases stmt <;>
    simp [execute, query, check_connected, check_error, hclosed, hhandle,
      parse_query_result, engine_query_rec, parse_rows_replicate_nil,
      rows_affected, parse_rows, Except.map]

/-- Witness for C7 with a DML statement affecting 3 rows. -/
theorem execute_returns_rows_affected_witness :
    (execute ⟨false, some ()⟩ "UPDATE t SET x = 1" [] 0 ⟨["c"], []⟩ false).1 =
      (query ⟨false, some ()⟩ "UPDATE t SET x = 1" [] 0 ⟨["c"], []⟩
        false).1.map (fun q => q.rows.length) ∧
    (execute ⟨false, some ()⟩ "UPDATE t SET x = 1" [] 0
        (engine_query_rec (.dml 3)) false).1 = .ok (rows_affected (.dml 3)) ∧
    rows_affected .ddl = 0 :=
  execute_returns_rows_affected ⟨false, some ()⟩ rfl rfl "UPDATE t SET x = 1"
    [] 0 ⟨["c"], []⟩ false (.dml 3)

/-- C8: evaluation at the failing input.  `Client.append` passes seven
arguments (the expected-offset token third) while `ffi.py` declares
`kmb_client_append` with six argtypes and no token slot, so ctypes rejects
every append call locally before the engine is entered — the supplied token
value is never passed across the boundary in the declared fixed signature —
and the omitted token defaults to the concrete offset 0, not to a no-check
sentinel. -/
theorem append_boundary_signature_mismatch :
    kmb_client_append_argtypes.length = 6 ∧
    append_call_arg_kinds.length = 7 ∧
    ctypesCallOk kmb_client_append_argtypes append_call_arg_kinds = false ∧
    append_expected_offset_default = 0 ∧
    append ⟨false, some ()⟩ 1 [[101]] append_expected_offset_default 0 5 =
      (.error .ctypesTypeError, []) :=
  ⟨rfl, rfl, rfl, rfl, rfl⟩

end Kimberlite
